import Mathlib

/-
Verification development for a small command-line task/project tracker.
The data model and operations below are a shallow embedding of the
repository: database.py (SQLite-backed repository layer) and pm.py
(the click-based command interpreter). Timestamps are modelled as
natural numbers; every operation that reads CURRENT_TIMESTAMP takes the
current instant as an explicit parameter.
-/

namespace PM

/-- A row of the projects table: id INTEGER PRIMARY KEY AUTOINCREMENT,
name TEXT UNIQUE NOT NULL, created_at TIMESTAMP DEFAULT CURRENT_TIMESTAMP. -/
structure Project where
  id : Nat
  name : String
  created_at : Nat
deriving DecidableEq, Repr

/-- A row of the tasks table: id, nullable project_id, title, nullable
description, status (default todo), created_at, updated_at. -/
structure Task where
  id : Nat
  project_id : Option Nat
  title : String
  description : Option String
  status : String
  created_at : Nat
  updated_at : Nat
deriving DecidableEq, Repr

/-- A task row joined (LEFT JOIN) with the owning project name, as returned
by get_task and list_tasks in database.py. -/
structure TaskView where
  id : Nat
  project_id : Option Nat
  title : String
  description : Option String
  status : String
  created_at : Nat
  updated_at : Nat
  project_name : Option String
deriving DecidableEq, Repr

/-- The database file contents: both tables plus the AUTOINCREMENT counters. -/
structure DB where
  projects : List Project
  tasks : List Task
  next_project_id : Nat
  next_task_id : Nat
deriving DecidableEq, Repr

/-- Storage-layer failure: the UNIQUE constraint on projects.name. -/
inductive DBError
  | ConstraintViolation
deriving DecidableEq, Repr

/-- database.py create_project: INSERT INTO projects (name) VALUES (?);
raises on the UNIQUE name constraint, otherwise returns lastrowid. -/
def create_project (db : DB) (name : String) (now : Nat) : Except DBError (Nat × DB) :=
  if db.projects.any (fun p => p.name == name) then
    .error .ConstraintViolation
  else
    let pid := db.next_project_id
    .ok (pid,
      { db with
        projects := db.projects ++ [{ id := pid, name := name, created_at := now }],
        next_project_id := pid + 1 })

/-- database.py get_project: SELECT * FROM projects WHERE name = ?. -/
def get_project (db : DB) (name : String) : Option Project :=
  db.projects.find? (fun p => p.name == name)

/-- database.py create_task: INSERT INTO tasks (title, project_id, description);
status defaults to todo, created_at and updated_at default to CURRENT_TIMESTAMP. -/
def create_task (db : DB) (title : String) (project_id : Option Nat)
    (description : Option String) (now : Nat) : Nat × DB :=
  let tid := db.next_task_id
  let t : Task :=
    { id := tid, project_id := project_id, title := title, description := description,
      status := "todo", created_at := now, updated_at := now }
  (tid, { db with tasks := db.tasks ++ [t], next_task_id := tid + 1 })

/-- The p.name column of the LEFT JOIN projects p ON t.project_id = p.id. -/
def project_name_of (db : DB) (pid : Option Nat) : Option String :=
  match pid with
  | none => none
  | some i => (db.projects.find? (fun p => p.id == i)).map (fun p => p.name)

/-- The SELECT t.*, p.name as project_name row built from a task row. -/
def task_view (db : DB) (t : Task) : TaskView :=
  { id := t.id, project_id := t.project_id, title := t.title,
    description := t.description, status := t.status, created_at := t.created_at,
    updated_at := t.updated_at, project_name := project_name_of db t.project_id }

/-- database.py get_task: the joined row WHERE t.id = ?, or None. -/
def get_task (db : DB) (task_id : Nat) : Option TaskView :=
  (db.tasks.find? (fun t => t.id == task_id)).map (task_view db)

/-- Insert one view into a list sorted descending by the given key, keeping
earlier elements first among equal keys (a stable descending sort step). -/
def insertViewBy (key : TaskView → Nat) (x : TaskView) : List TaskView → List TaskView
  | [] => [x]
  | y :: ys => if key x < key y then y :: insertViewBy key x ys else x :: y :: ys

/-- Stable sort of task views, descending by the given key. -/
def sortViewsByDesc (key : TaskView → Nat) : List TaskView → List TaskView
  | [] => []
  | x :: xs => insertViewBy key x (sortViewsByDesc key xs)

/-- The final client-side re-sort in pm.py task_list:
sorted(tasks, key=lambda t: t.id, reverse=True). -/
def sortByIdDesc (l : List TaskView) : List TaskView :=
  sortViewsByDesc (fun v => v.id) l

/-- database.py list_tasks: joined rows, optional project_id and status
filters ANDed in, ORDER BY t.created_at DESC. -/
def list_tasks (db : DB) (project_id : Option Nat) (status : Option String) :
    List TaskView :=
  let rows := (db.tasks.filter (fun t =>
    (match project_id with
     | none => true
     | some pid => t.project_id == some pid) &&
    (match status with
     | none => true
     | some s => t.status == s))).map (task_view db)
  sortViewsByDesc (fun v => v.created_at) rows

/-- database.py update_task_status: UPDATE tasks SET status = ?,
updated_at = CURRENT_TIMESTAMP WHERE id = ?; returns rowcount greater than 0. -/
def update_task_status (db : DB) (task_id : Nat) (status : String) (now : Nat) :
    Bool × DB :=
  (db.tasks.any (fun t => t.id == task_id),
    { db with tasks := db.tasks.map (fun t =>
        if t.id == task_id then { t with status := status, updated_at := now } else t) })

/-- database.py update_task: builds the SET list from the provided optional
fields; returns False without touching the database when none are provided,
otherwise also sets updated_at = CURRENT_TIMESTAMP and returns rowcount
greater than 0. -/
def update_task (db : DB) (task_id : Nat) (title description : Option String)
    (project_id : Option Nat) (now : Nat) : Bool × DB :=
  if title.isNone && description.isNone && project_id.isNone then
    (false, db)
  else
    (db.tasks.any (fun t => t.id == task_id),
      { db with tasks := db.tasks.map (fun t =>
          if t.id == task_id then
            { t with
              title := match title with | none => t.title | some v => v,
              description := match description with | none => t.description | some v => some v,
              project_id := match project_id with | none => t.project_id | some v => some v,
              updated_at := now }
          else t) })

/-- database.py delete_task: DELETE FROM tasks WHERE id = ?; returns
rowcount greater than 0. -/
def delete_task (db : DB) (task_id : Nat) : Bool × DB :=
  (db.tasks.any (fun t => t.id == task_id),
    { db with tasks := db.tasks.filter (fun t => !(t.id == task_id)) })

/-- A line printed by the command interpreter: a green-check success line,
a red-cross error line, or neutral output (tables, no-results notices). -/
inductive OutLine
  | success (msg : String)
  | error (msg : String)
  | info (msg : String)
deriving DecidableEq, Repr

/-- A call made by the command interpreter into the database layer, in
order; used to state which storage calls an invocation performs. -/
inductive DBCall
  | getProject (name : String)
  | getTask (id : Nat)
  | listTasksCall (project_id : Option Nat) (status : Option String)
  | createTaskCall (title : String) (project_id : Option Nat) (description : Option String)
  | createProjectCall (name : String)
  | updateTaskStatusCall (id : Nat) (status : String)
  | updateTaskCall (id : Nat) (title description : Option String) (project_id : Option Nat)
  | deleteTaskCall (id : Nat)
deriving DecidableEq, Repr

/-- Whether a database call writes to the database. -/
def DBCall.isMutation : DBCall → Bool
  | .getProject _ => false
  | .getTask _ => false
  | .listTasksCall _ _ => false
  | .createTaskCall _ _ _ => true
  | .createProjectCall _ => true
  | .updateTaskStatusCall _ _ => true
  | .updateTaskCall _ _ _ _ => true
  | .deleteTaskCall _ => true

/-- The observable outcome of one command invocation: the lines printed,
the process exit status, the database contents afterwards, the storage
calls made, and the task rows rendered into the listing table (empty when
no table is shown). Every modelled handler returns normally after catching
or avoiding storage failures, and click then exits the process with
status 0, so exitCode is 0 on all these paths. -/
structure CmdResult where
  out : List OutLine
  exitCode : Nat
  db : DB
  calls : List DBCall
  rows : List TaskView
deriving DecidableEq, Repr

/-- Python truthiness of an optional string option: None and the empty
string are falsy. -/
def truthy : Option String → Bool
  | none => false
  | some s => !(s == "")

/-- Python truthiness of an optional integer: None and 0 are falsy. -/
def truthyNat : Option Nat → Bool
  | none => false
  | some n => !(n == 0)

/-- pm.py VALID_STATUSES. -/
def VALID_STATUSES : List String := ["todo", "in-progress", "done"]

/-- pm.py STATUS_SHORTCUTS. -/
def STATUS_SHORTCUTS : List (String × String) :=
  [("t", "todo"), ("i", "in-progress"), ("d", "done"),
   ("todo", "todo"), ("in-progress", "in-progress"), ("done", "done")]

/-- ASCII lowercasing of one character, as Python str.lower acts on the
ASCII inputs relevant here. -/
def lowerChar (c : Char) : Char :=
  if 65 ≤ c.toNat && c.toNat ≤ 90 then Char.ofNat (c.toNat + 32) else c

/-- ASCII lowercasing of a string, as Python str.lower acts on the ASCII
inputs relevant here. -/
def lowerString (s : String) : String :=
  String.mk (s.data.map lowerChar)

/-- pm.py normalize_status on a non-None status: lowercases the input,
returns the shortcut table entry when there is one and otherwise the
input unchanged. -/
def normalize_status (status : String) : String :=
  match STATUS_SHORTCUTS.lookup (lowerString status) with
  | some full => full
  | none => status

/-- pm.py project_create: try create_project, print a success line, and on
any exception print an error line; either way return normally. -/
def project_create_cmd (db : DB) (name : String) (now : Nat) : CmdResult :=
  match create_project db name now with
  | .ok (pid, db1) =>
    { out := [.success ("Created project " ++ name ++ " with ID " ++ toString pid)],
      exitCode := 0, db := db1, calls := [.createProjectCall name], rows := [] }
  | .error _ =>
    { out := [.error "Error: UNIQUE constraint failed: projects.name"],
      exitCode := 0, db := db, calls := [.createProjectCall name], rows := [] }

/-- pm.py task_create: resolve the project name first when one was given
(truthily), aborting with an error line if unresolved; then insert. -/
def task_create_cmd (db : DB) (title : String) (project description : Option String)
    (now : Nat) : CmdResult :=
  if truthy project then
    let pname := project.getD ""
    match get_project db pname with
    | none =>
      { out := [.error ("Project " ++ pname ++ " not found.")],
        exitCode := 0, db := db, calls := [.getProject pname], rows := [] }
    | some proj =>
      let r := create_task db title (some proj.id) description now
      { out := [.success ("Created task " ++ title ++ " with ID " ++ toString r.1)],
        exitCode := 0, db := r.2,
        calls := [.getProject pname, .createTaskCall title (some proj.id) description],
        rows := [] }
  else
    let r := create_task db title none description now
    { out := [.success ("Created task " ++ title ++ " with ID " ++ toString r.1)],
      exitCode := 0, db := r.2, calls := [.createTaskCall title none description],
      rows := [] }

/-- The part of pm.py task_list after project resolution: normalize a
truthy status option and reject it when invalid; fetch with the status
filter, except that an absent status without the all flag fetches
unfiltered and drops done rows client-side; then re-sort by id descending
for display. -/
def task_list_body (db : DB) (project_id : Option Nat) (status : Option String)
    (all : Bool) (calls0 : List DBCall) : CmdResult :=
  let status1 := if truthy status then some (normalize_status (status.getD "")) else status
  if truthy status && !(VALID_STATUSES.contains (status1.getD "")) then
    { out := [.error "Invalid status. Use: todo or t, in-progress or i, done or d"],
      exitCode := 0, db := db, calls := calls0, rows := [] }
  else
    let fetched :=
      if status1.isNone && !all then
        (list_tasks db project_id none).filter (fun t => !(t.status == "done"))
      else
        list_tasks db project_id status1
    let calls1 :=
      if status1.isNone && !all then calls0 ++ [DBCall.listTasksCall project_id none]
      else calls0 ++ [DBCall.listTasksCall project_id status1]
    if fetched.isEmpty then
      { out := [.info "No tasks found."], exitCode := 0, db := db, calls := calls1,
        rows := [] }
    else
      { out := [.info "Tasks table"], exitCode := 0, db := db, calls := calls1,
        rows := sortByIdDesc fetched }

/-- pm.py task_list: resolve a truthy project option first, aborting with
an error line if unresolved, then run the listing body. -/
def task_list_cmd (db : DB) (project status : Option String) (all : Bool) : CmdResult :=
  if truthy project then
    let pname := project.getD ""
    match get_project db pname with
    | none =>
      { out := [.error ("Project " ++ pname ++ " not found.")],
        exitCode := 0, db := db, calls := [.getProject pname], rows := [] }
    | some proj => task_list_body db (some proj.id) status all [.getProject pname]
  else
    task_list_body db none status all []

/-- pm.py task_update: fetch the task (aborting when absent); apply a
truthy status option immediately, rejecting an invalid one; only then
resolve a truthy project option, aborting when unresolved; finally call
update_task when title, description or resolved project id is truthy. -/
def task_update_cmd (db : DB) (task_id : Nat) (status title description project : Option String)
    (now : Nat) : CmdResult :=
  match get_task db task_id with
  | none =>
    { out := [.error ("Task " ++ toString task_id ++ " not found.")],
      exitCode := 0, db := db, calls := [.getTask task_id], rows := [] }
  | some _ =>
    let statusStep : Option (Option String) :=
      if truthy status then
        let s := normalize_status (status.getD "")
        if VALID_STATUSES.contains s then some (some s) else none
      else some none
    match statusStep with
    | none =>
      { out := [.error "Invalid status. Use: todo or t, in-progress or i, done or d"],
        exitCode := 0, db := db, calls := [.getTask task_id], rows := [] }
    | some sApply =>
      let afterStatus : List OutLine × DB × List DBCall :=
        match sApply with
        | none => ([], db, [DBCall.getTask task_id])
        | some s =>
          let r := update_task_status db task_id s now
          ((if r.1 then [OutLine.success ("Updated task " ++ toString task_id ++ " status to " ++ s)]
            else [OutLine.error ("Failed to update task " ++ toString task_id)]),
           r.2, [DBCall.getTask task_id, DBCall.updateTaskStatusCall task_id s])
      let out1 := afterStatus.1
      let db1 := afterStatus.2.1
      let calls1 := afterStatus.2.2
      let projStep : Option (Option Nat) :=
        if truthy project then
          match get_project db1 (project.getD "") with
          | none => none
          | some proj => some (some proj.id)
        else some none
      let calls2 := calls1 ++ (if truthy project then [DBCall.getProject (project.getD "")] else [])
      match projStep with
      | none =>
        { out := out1 ++ [.error ("Project " ++ project.getD "" ++ " not found.")],
          exitCode := 0, db := db1, calls := calls2, rows := [] }
      | some project_id =>
        if truthy title || truthy description || truthyNat project_id then
          let r := update_task db1 task_id title description project_id now
          { out := out1 ++ (if r.1 then [OutLine.success ("Updated task " ++ toString task_id)]
              else [OutLine.error ("Failed to update task " ++ toString task_id)]),
            exitCode := 0, db := r.2,
            calls := calls2 ++ [DBCall.updateTaskCall task_id title description project_id],
            rows := [] }
        else
          { out := out1, exitCode := 0, db := db1, calls := calls2, rows := [] }

/-- pm.py task_delete, after the confirmation prompt was accepted: delete
and report success, or report not-found with an error line. -/
def task_delete_cmd (db : DB) (task_id : Nat) : CmdResult :=
  let r := delete_task db task_id
  if r.1 then
    { out := [.success ("Deleted task " ++ toString task_id)],
      exitCode := 0, db := r.2, calls := [.deleteTaskCall task_id], rows := [] }
  else
    { out := [.error ("Task " ++ toString task_id ++ " not found.")],
      exitCode := 0, db := r.2, calls := [.deleteTaskCall task_id], rows := [] }

/-- Project option resolution as the commands perform it: a truthy project
option is looked up by name, an absent or empty one leaves the filter unset. -/
def resolved_project_id (db : DB) (project : Option String) : Option Nat :=
  if truthy project then (get_project db (project.getD "")).map (fun p => p.id) else none

/-- The project option, when truthy, names an existing project. -/
def project_resolves (db : DB) (project : Option String) : Prop :=
  truthy project = true → (get_project db (project.getD "")).isSome = true

/-- The timestamp invariant over all task rows: created_at is never later
than updated_at. -/
def tasks_time_inv (db : DB) : Prop := ∀ t ∈ db.tasks, t.created_at ≤ t.updated_at

/-- Sample project row used in concrete evaluations. -/
def projAcme : Project := { id := 1, name := "Acme", created_at := 10 }

/-- Sample task row used in concrete evaluations. -/
def taskShip : Task :=
  { id := 1, project_id := some 1, title := "Ship", description := none,
    status := "todo", created_at := 11, updated_at := 11 }

/-- Sample database: one project and one task belonging to it. -/
def dbSample : DB :=
  { projects := [projAcme], tasks := [taskShip], next_project_id := 2, next_task_id := 2 }

/-- The joined view of taskShip inside dbSample. -/
def viewShip : TaskView :=
  { id := 1, project_id := some 1, title := "Ship", description := none,
    status := "todo", created_at := 11, updated_at := 11, project_name := some "Acme" }

/-- Sample database whose only project is named Work. -/
def dbDup : DB :=
  { projects := [{ id := 1, name := "Work", created_at := 2 }], tasks := [],
    next_project_id := 2, next_task_id := 1 }

/-- Sample displayed rows with distinct ids and equal creation instants. -/
def viewLow : TaskView :=
  { id := 1, project_id := none, title := "first", description := none,
    status := "todo", created_at := 5, updated_at := 5, project_name := none }

/-- Second sample displayed row, same created_at as viewLow, larger id. -/
def viewHigh : TaskView :=
  { id := 2, project_id := none, title := "second", description := none,
    status := "todo", created_at := 5, updated_at := 5, project_name := none }

/- ===== General lemmas about the embedding ===== -/

theorem insertViewBy_perm (key : TaskView → Nat) (x : TaskView) :
    ∀ l : List TaskView, List.Perm (insertViewBy key x l) (x :: l)
  | [] => List.Perm.refl _
  | y :: ys => by
    simp only [insertViewBy]
    split
    · exact ((insertViewBy_perm key x ys).cons y).trans (List.Perm.swap x y ys)
    · exact List.Perm.refl _

theorem sortViewsByDesc_perm (key : TaskView → Nat) :
    ∀ l : List TaskView, List.Perm (sortViewsByDesc key l) l
  | [] => List.Perm.refl _
  | x :: xs =>
    (insertViewBy_perm key x (sortViewsByDesc key xs)).trans
      ((sortViewsByDesc_perm key xs).cons x)

theorem sorted_insertViewBy (key : TaskView → Nat) (x : TaskView) :
    ∀ l : List TaskView, List.Sorted (fun a b => key b ≤ key a) l →
      List.Sorted (fun a b => key b ≤ key a) (insertViewBy key x l)
  | [], _ => by simp [insertViewBy]
  | y :: ys, h => by
    rw [List.sorted_cons] at h
    simp only [insertViewBy]
    split
    · rename_i hlt
      rw [List.sorted_cons]
      refine ⟨?_, sorted_insertViewBy key x ys h.2⟩
      intro b hb
      rcases List.mem_cons.mp ((insertViewBy_perm key x ys).mem_iff.mp hb) with rfl | hb2
      · exact Nat.le_of_lt hlt
      · exact h.1 b hb2
    · rename_i hge
      rw [List.sorted_cons]
      refine ⟨?_, List.sorted_cons.mpr h⟩
      intro b hb
      rcases List.mem_cons.mp hb with rfl | hb2
      · exact Nat.le_of_not_lt hge
      · exact Nat.le_trans (h.1 b hb2) (Nat.le_of_not_lt hge)

theorem sorted_sortViewsByDesc (key : TaskView → Nat) :
    ∀ l : List TaskView, List.Sorted (fun a b => key b ≤ key a) (sortViewsByDesc key l)
  | [] => List.sorted_nil
  | x :: xs => sorted_insertViewBy key x _ (sorted_sortViewsByDesc key xs)

theorem sortByIdDesc_perm (l : List TaskView) : List.Perm (sortByIdDesc l) l :=
  sortViewsByDesc_perm (fun v => v.id) l

theorem mem_sortByIdDesc (v : TaskView) (l : List TaskView) :
    v ∈ sortByIdDesc l ↔ v ∈ l :=
  (sortByIdDesc_perm l).mem_iff

theorem sortByIdDesc_sorted (l : List TaskView) :
    List.Sorted (fun a b => b.id ≤ a.id) (sortByIdDesc l) :=
  sorted_sortViewsByDesc (fun v => v.id) l

theorem sortByIdDesc_sorted_strict (l : List TaskView)
    (hnd : l.Pairwise (fun a b => a.id ≠ b.id)) :
    List.Sorted (fun a b => b.id < a.id) (sortByIdDesc l) := by
  have hs := sortByIdDesc_sorted l
  have hnd2 : (sortByIdDesc l).Pairwise (fun a b => a.id ≠ b.id) :=
    ((sortByIdDesc_perm l).pairwise_iff (fun h => Ne.symm h)).mpr hnd
  exact (List.Pairwise.and hs hnd2).imp
    (fun hab => lt_of_le_of_ne hab.1 (fun e => hab.2 e.symm))

theorem sortByIdDesc_eq_of_perm (l l2 : List TaskView) (hp : List.Perm l l2)
    (hnd : l.Pairwise (fun a b => a.id ≠ b.id)) :
    sortByIdDesc l = sortByIdDesc l2 := by
  haveI : IsAntisymm TaskView (fun a b => b.id < a.id) :=
    ⟨fun a b h1 h2 => absurd (Nat.lt_trans h1 h2) (Nat.lt_irrefl _)⟩
  have hnd2 : l2.Pairwise (fun a b => a.id ≠ b.id) :=
    (hp.pairwise_iff (fun h => Ne.symm h)).mp hnd
  exact List.eq_of_perm_of_sorted
    (((sortByIdDesc_perm l).trans hp).trans (sortByIdDesc_perm l2).symm)
    (sortByIdDesc_sorted_strict l hnd) (sortByIdDesc_sorted_strict l2 hnd2)

theorem find?_map_comm (f : Task → Task) (p : Task → Bool) (hf : ∀ t, p (f t) = p t) :
    ∀ l : List Task, (l.map f).find? p = (l.find? p).map f
  | [] => rfl
  | t :: ts => by
    by_cases hpt : p t = true
    · rw [List.map_cons, List.find?_cons_of_pos _ (by rw [hf]; exact hpt),
        List.find?_cons_of_pos _ hpt, Option.map_some']
    · rw [List.map_cons, List.find?_cons_of_neg _ (by rw [hf]; exact hpt),
        List.find?_cons_of_neg _ hpt, find?_map_comm f p hf ts]

theorem mem_ite_empty_sort (L : List TaskView) (v : TaskView) :
    (v ∈ (if L.isEmpty then ([] : List TaskView) else sortByIdDesc L)) ↔ v ∈ L := by
  split
  · rename_i h
    rw [List.isEmpty_iff.mp h]
  · exact mem_sortByIdDesc v L

theorem mem_rows_body_none (db : DB) (pid : Option Nat) (all : Bool)
    (calls0 : List DBCall) (v : TaskView) :
    v ∈ (task_list_body db pid none all calls0).rows ↔
      v ∈ list_tasks db pid none ∧ (all = false → ¬ v.status = "done") := by
  cases all
  · simp [task_list_body, truthy]
    split
    · rename_i h
      simp only [List.not_mem_nil, false_iff]
      rintro ⟨hv, hne⟩
      exact hne (h v hv)
    · simp [mem_sortByIdDesc, List.mem_filter]
  · simp [task_list_body, truthy]
    split
    · rename_i h
      simp [h]
    · simp [mem_sortByIdDesc]


/-- C4: without a status filter and without the all flag, the displayed
listing contains exactly the fetched tasks whose status is not done; with
the all flag, done tasks are included as well. -/
theorem task_list_hides_done (db : DB) (project : Option String)
    (hp : project_resolves db project) (v : TaskView) :
    (v ∈ (task_list_cmd db project none false).rows ↔
      v ∈ list_tasks db (resolved_project_id db project) none ∧ ¬ v.status = "done") ∧
    (v ∈ (task_list_cmd db project none true).rows ↔
      v ∈ list_tasks db (resolved_project_id db project) none) := by
  by_cases htp : truthy project = true
  · obtain ⟨proj, hproj⟩ := Option.isSome_iff_exists.mp (hp htp)
    unfold task_list_cmd resolved_project_id
    simp only [htp, if_true, hproj, Option.map_some']
    constructor
    · rw [mem_rows_body_none]
      simp
    · rw [mem_rows_body_none]
      simp
  · have htp2 : truthy project = false := by simpa using htp
    unfold task_list_cmd resolved_project_id
    simp only [htp2, Bool.false_eq_true, if_false]
    constructor
    · rw [mem_rows_body_none]
      simp
    · rw [mem_rows_body_none]
      simp


/-- C3: setting an existing task status to done and refetching shows status
done and a strictly larger updated_at, whenever the update executes at an
instant strictly later than the stored updated_at. -/
theorem update_status_done_then_get (db : DB) (task_id : Nat) (v : TaskView) (now : Nat)
    (hget : get_task db task_id = some v) (hnow : v.updated_at < now) :
    (update_task_status db task_id "done" now).1 = true ∧
    ∃ v2, get_task (update_task_status db task_id "done" now).2 task_id = some v2 ∧
      v2.status = "done" ∧ v.updated_at < v2.updated_at := by
  unfold get_task at hget
  rcases Option.map_eq_some'.mp hget with ⟨t, hfind, hv⟩
  have hpt0 := List.find?_some hfind
  have hpt : (t.id == task_id) = true := hpt0
  have hmem : t ∈ db.tasks := List.mem_of_find?_eq_some hfind
  constructor
  · exact List.any_eq_true.mpr ⟨t, hmem, hpt⟩
  · refine ⟨task_view (update_task_status db task_id "done" now).2
      (if t.id == task_id then { t with status := "done", updated_at := now } else t),
      ?_, ?_, ?_⟩
    · show ((db.tasks.map fun u =>
          if u.id == task_id then { u with status := "done", updated_at := now } else u).find?
            (fun u => u.id == task_id)).map
          (task_view (update_task_status db task_id "done" now).2) = _
      rw [find?_map_comm _ _ ?hpres, hfind, Option.map_some', Option.map_some']
      case hpres =>
        intro u
        by_cases hu : (u.id == task_id) = true
        · simp [hu]
        · simp [hu]
    · simp [hpt, task_view]
    · simpa [hpt, task_view] using hnow


theorem task_list_body_rows_sorted (db : DB) (pid : Option Nat) (status : Option String)
    (all : Bool) (calls0 : List DBCall) :
    List.Sorted (fun a b => b.id ≤ a.id) (task_list_body db pid status all calls0).rows := by
  unfold task_list_body
  dsimp only
  repeat' split
  all_goals first
  | exact List.sorted_nil
  | exact sortByIdDesc_sorted _

theorem task_list_rows_sorted (db : DB) (project status : Option String) (all : Bool) :
    List.Sorted (fun a b => b.id ≤ a.id) (task_list_cmd db project status all).rows := by
  unfold task_list_cmd
  dsimp only
  repeat' split
  all_goals first
  | exact List.sorted_nil
  | exact task_list_body_rows_sorted _ _ _ _ _

theorem map_update_id (g : Task → Task) (task_id : Nat) (l : List Task)
    (h : ∀ t ∈ l, ¬ t.id = task_id) :
    (l.map fun t => if t.id == task_id then g t else t) = l := by
  rw [List.map_congr_left (g := id) ?_, List.map_id]
  intro t ht
  simp [show (t.id == task_id) = false by simpa using h t ht]

/-- C5: the displayed task list is always the storage rows re-sorted by id
descending: the re-sort is a permutation, it is sorted by id descending, it
is insensitive to the storage-layer ordering whenever ids are distinct, and
every displayed listing is sorted by id descending. -/
theorem task_list_display_sort (l l2 : List TaskView) :
    List.Perm (sortByIdDesc l) l ∧
    List.Sorted (fun a b => b.id ≤ a.id) (sortByIdDesc l) ∧
    (List.Perm l l2 → l.Pairwise (fun a b => ¬ a.id = b.id) →
      sortByIdDesc l = sortByIdDesc l2) ∧
    (∀ db project status all,
      List.Sorted (fun a b => b.id ≤ a.id) (task_list_cmd db project status all).rows) :=
  ⟨sortByIdDesc_perm l, sortByIdDesc_sorted l, sortByIdDesc_eq_of_perm l l2,
    fun db project status all => task_list_rows_sorted db project status all⟩

/-- C6: update_task with no optional field is a no-op returning false; with
at least one field, it rewrites exactly the supplied fields of the matching
row, refreshes updated_at, and leaves every other row and field unchanged. -/
theorem update_task_frame (db : DB) (task_id now : Nat) (title description : Option String)
    (project_id : Option Nat) :
    update_task db task_id none none none now = (false, db) ∧
    (¬(title = none ∧ description = none ∧ project_id = none) →
      ∀ (i : Nat) (t : Task), db.tasks[i]? = some t →
        ∃ t2, (update_task db task_id title description project_id now).2.tasks[i]? = some t2 ∧
          (¬ t.id = task_id → t2 = t) ∧
          (t.id = task_id →
            t2.id = t.id ∧ t2.status = t.status ∧ t2.created_at = t.created_at ∧
            t2.updated_at = now ∧
            t2.title = (match title with | none => t.title | some v => v) ∧
            t2.description = (match description with | none => t.description | some v => some v) ∧
            t2.project_id = (match project_id with | none => t.project_id | some v => some v))) := by
  constructor
  · rfl
  · intro hne i t hit
    have hguard : (title.isNone && description.isNone && project_id.isNone) = false := by
      rcases title <;> rcases description <;> rcases project_id <;> simp_all
    unfold update_task
    rw [hguard]
    simp only [Bool.false_eq_true, if_false]
    clear hne hguard
    refine ⟨(fun t : Task => if t.id == task_id then
        { t with
          title := match title with | none => t.title | some v => v,
          description := match description with | none => t.description | some v => some v,
          project_id := match project_id with | none => t.project_id | some v => some v,
          updated_at := now }
      else t) t, ?_, ?_, ?_⟩
    · rw [List.getElem?_map _ db.tasks i, hit, Option.map_some']
    · intro hne2
      simp [show (t.id == task_id) = false by simpa using hne2]
    · intro heq
      simp [show (t.id == task_id) = true by simpa using heq]

/-- C7: creating a project whose name already exists fails with
ConstraintViolation, the command reports an error line, and the set of
project rows (in particular the count) is unchanged. -/
theorem create_project_duplicate (db : DB) (name : String) (now : Nat)
    (h : ∃ p ∈ db.projects, p.name = name) :
    create_project db name now = .error .ConstraintViolation ∧
    (project_create_cmd db name now).db = db ∧
    (project_create_cmd db name now).db.projects.length = db.projects.length ∧
    ∃ m, OutLine.error m ∈ (project_create_cmd db name now).out := by
  obtain ⟨p, hmem, hname⟩ := h
  have hany : db.projects.any (fun q => q.name == name) = true :=
    List.any_eq_true.mpr ⟨p, hmem, by simp [hname]⟩
  have hcp : create_project db name now = .error .ConstraintViolation := by
    unfold create_project
    rw [hany]
    rfl
  refine ⟨hcp, ?_, ?_, ?_⟩
  · unfold project_create_cmd
    rw [hcp]
  · unfold project_create_cmd
    rw [hcp]
  · unfold project_create_cmd
    rw [hcp]
    exact ⟨"Error: UNIQUE constraint failed: projects.name", by simp⟩

/-- C9: at creation a task has updated_at equal to created_at, and every
mutation through update_task_status or update_task preserves the invariant
that updated_at is at least created_at, whenever the mutation executes at
an instant no earlier than each row's creation instant. -/
theorem updated_at_ge_created_at (db : DB) (now : Nat) :
    (∀ title pid desc, ∃ t, (create_task db title pid desc now).2.tasks = db.tasks ++ [t] ∧
      t.created_at = now ∧ t.updated_at = now) ∧
    (∀ title pid desc, tasks_time_inv db → tasks_time_inv (create_task db title pid desc now).2) ∧
    (∀ task_id status, tasks_time_inv db → (∀ t ∈ db.tasks, t.created_at ≤ now) →
      tasks_time_inv (update_task_status db task_id status now).2) ∧
    (∀ task_id title desc pid, tasks_time_inv db → (∀ t ∈ db.tasks, t.created_at ≤ now) →
      tasks_time_inv (update_task db task_id title desc pid now).2) := by
  refine ⟨fun title pid desc => ⟨_, rfl, rfl, rfl⟩, ?_, ?_, ?_⟩
  · intro title pid desc hinv t ht
    rcases List.mem_append.mp ht with h1 | h1
    · exact hinv t h1
    · rcases List.mem_singleton.mp h1 with rfl
      exact Nat.le_refl _
  · intro task_id status hinv hle t2 ht2
    rcases List.mem_map.mp ht2 with ⟨t, ht, rfl⟩
    by_cases hid : (t.id == task_id) = true
    · simpa [hid] using hle t ht
    · simpa [hid] using hinv t ht
  · intro task_id title desc pid hinv hle t2 ht2
    unfold update_task at ht2
    by_cases hguard : (title.isNone && desc.isNone && pid.isNone) = true
    · rw [hguard] at ht2
      exact hinv t2 (by simpa using ht2)
    · have hguard2 : (title.isNone && desc.isNone && pid.isNone) = false := by
        revert hguard
        cases (title.isNone && desc.isNone && pid.isNone) <;> simp
      rw [hguard2] at ht2
      simp only [Bool.false_eq_true, if_false] at ht2
      rcases List.mem_map.mp ht2 with ⟨t, ht, rfl⟩
      by_cases hid : (t.id == task_id) = true
      · simpa [hid] using hle t ht
      · simpa [hid] using hinv t ht

/-- C10: update_task on a task id with no matching row returns false and
leaves the database unchanged whether or not fields were supplied, the
same result as the no-field no-op. -/
theorem update_task_missing_row (db : DB) (task_id now : Nat)
    (title description : Option String) (project_id : Option Nat)
    (h : ∀ t ∈ db.tasks, ¬ t.id = task_id) :
    update_task db task_id title description project_id now = (false, db) ∧
    update_task db task_id none none none now = (false, db) := by
  have hany : db.tasks.any (fun t => t.id == task_id) = false :=
    List.any_eq_false.mpr (fun t ht => by simpa using h t ht)
  constructor
  · unfold update_task
    split
    · rfl
    · rw [hany, map_update_id _ task_id db.tasks h]
  · rfl


/-- C1 (amended): a recoverable user error, namely a duplicate project
name, an unresolved project name, a missing task id, or an invalid status,
prints an error line and the handler returns normally so the process exits
with status 0, not a non-zero status; no unhandled exception propagates. -/
theorem recoverable_errors_exit_zero (db : DB) (now : Nat) :
    (∀ name, (∃ p ∈ db.projects, p.name = name) →
      (project_create_cmd db name now).exitCode = 0 ∧
      ∃ m, OutLine.error m ∈ (project_create_cmd db name now).out) ∧
    (∀ title pname desc, ¬ pname = "" → get_project db pname = none →
      (task_create_cmd db title (some pname) desc now).exitCode = 0 ∧
      (task_create_cmd db title (some pname) desc now).db = db ∧
      ∃ m, OutLine.error m ∈ (task_create_cmd db title (some pname) desc now).out) ∧
    (∀ task_id, (∀ t ∈ db.tasks, ¬ t.id = task_id) →
      (task_delete_cmd db task_id).exitCode = 0 ∧
      (task_delete_cmd db task_id).db.tasks = db.tasks ∧
      ∃ m, OutLine.error m ∈ (task_delete_cmd db task_id).out) ∧
    (∀ s all, ¬ s = "" → VALID_STATUSES.contains (normalize_status s) = false →
      (task_list_cmd db none (some s) all).exitCode = 0 ∧
      ∃ m, OutLine.error m ∈ (task_list_cmd db none (some s) all).out) := by
  refine ⟨?_, ?_, ?_, ?_⟩
  · intro name hdup
    obtain ⟨p, hmem, hname⟩ := hdup
    have hany : db.projects.any (fun q => q.name == name) = true :=
      List.any_eq_true.mpr ⟨p, hmem, by simp [hname]⟩
    have hcp : create_project db name now = .error .ConstraintViolation := by
      unfold create_project
      rw [hany]
      rfl
    unfold project_create_cmd
    rw [hcp]
    exact ⟨rfl, ⟨"Error: UNIQUE constraint failed: projects.name", by simp⟩⟩
  · intro title pname desc hpn hget
    have ht : truthy (some pname) = true := by simp [truthy, hpn]
    unfold task_create_cmd
    simp only [ht, if_true, Option.getD_some, hget]
    simp
  · intro task_id h
    have hany : db.tasks.any (fun t => t.id == task_id) = false :=
      List.any_eq_false.mpr (fun t ht => by simpa using h t ht)
    have hfilter : db.tasks.filter (fun t => !(t.id == task_id)) = db.tasks :=
      List.filter_eq_self.mpr (fun t ht => by simpa using h t ht)
    unfold task_delete_cmd delete_task
    simp only [hany, Bool.false_eq_true, if_false, hfilter]
    simp
  · intro s all hs hinv
    have hs2 : (s == "") = false := by simpa using hs
    unfold task_list_cmd task_list_body
    simp only [truthy, hs2, Option.getD_some, hinv, Bool.not_false, Bool.true_and,
      Bool.and_true, Bool.and_self, Bool.false_eq_true, if_false, if_true]
    simp


/-- C1 counterexample: creating a project whose name already exists prints
an error line yet the process exit status is 0, not non-zero. -/
theorem recoverable_errors_exit_zero_counterexample :
    (project_create_cmd dbDup "Work" 5).out =
      [OutLine.error "Error: UNIQUE constraint failed: projects.name"] ∧
    (project_create_cmd dbDup "Work" 5).exitCode = 0 := by decide

/-- C1 witness: deleting a missing task id on the sample database exits
with status 0, leaves the rows unchanged, and prints an error line. -/
theorem recoverable_errors_exit_zero_witness :
    (task_delete_cmd dbSample 99).exitCode = 0 ∧
    (task_delete_cmd dbSample 99).db.tasks = dbSample.tasks ∧
    ∃ m, OutLine.error m ∈ (task_delete_cmd dbSample 99).out :=
  (recoverable_errors_exit_zero dbSample 0).2.2.1 99 (by decide)

/-- C2 (amended): an unresolved project name aborts task create and task
list with a project-not-found error line and an unchanged database; task
update also aborts with that error line and performs no further write, but
a valid status supplied in the same invocation has already been applied
before the project name is resolved, so the database reflects exactly that
status update (and is unchanged when no status was supplied). -/
theorem project_not_found_aborts (db : DB) (now : Nat) :
    (∀ title pname desc, ¬ pname = "" → get_project db pname = none →
      (task_create_cmd db title (some pname) desc now).db = db ∧
      OutLine.error ("Project " ++ pname ++ " not found.") ∈
        (task_create_cmd db title (some pname) desc now).out) ∧
    (∀ status all pname, ¬ pname = "" → get_project db pname = none →
      (task_list_cmd db (some pname) status all).db = db ∧
      OutLine.error ("Project " ++ pname ++ " not found.") ∈
        (task_list_cmd db (some pname) status all).out) ∧
    (∀ task_id status title desc pname, ¬ pname = "" → get_project db pname = none →
      ¬ get_task db task_id = none →
      (truthy status = true →
        VALID_STATUSES.contains (normalize_status (status.getD "")) = true) →
      OutLine.error ("Project " ++ pname ++ " not found.") ∈
        (task_update_cmd db task_id status title desc (some pname) now).out ∧
      (task_update_cmd db task_id status title desc (some pname) now).db =
        (if truthy status then
          (update_task_status db task_id (normalize_status (status.getD "")) now).2
         else db)) := by
  refine ⟨?_, ?_, ?_⟩
  · intro title pname desc hpn hget
    have ht : truthy (some pname) = true := by simp [truthy, hpn]
    unfold task_create_cmd
    simp only [ht, if_true, Option.getD_some, hget]
    simp
  · intro status all pname hpn hget
    have ht : truthy (some pname) = true := by simp [truthy, hpn]
    unfold task_list_cmd
    simp only [ht, if_true, Option.getD_some, hget]
    simp
  · intro task_id status title desc pname hpn hget htask hvalid
    obtain ⟨v, hsome⟩ : ∃ v, get_task db task_id = some v := by
      cases hgt : get_task db task_id
      · exact absurd hgt htask
      · exact ⟨_, rfl⟩
    have hpt : truthy (some pname) = true := by simp [truthy, hpn]
    by_cases hts : truthy status = true
    · have hval := hvalid hts
      have hget2 : get_project
          (update_task_status db task_id (normalize_status (status.getD "")) now).2 pname =
          none := hget
      unfold task_update_cmd
      simp only [hsome, hts, hval, if_true, hpt, Option.getD_some, hget2]
      simp [hts]
    · have hts2 : truthy status = false := by simpa using hts
      unfold task_update_cmd
      simp only [hsome, hts2, Bool.false_eq_true, if_false, if_true, hpt,
        Option.getD_some, hget]
      simp [hts2]


/-- C2 counterexample: updating a task with a valid status and an unknown
project name reports project-not-found but leaves the database changed:
the status update was applied before the project lookup. -/
theorem project_not_found_aborts_counterexample :
    ¬ (task_update_cmd dbSample 1 (some "d") none none (some "X") 20).db = dbSample ∧
    OutLine.error "Project X not found." ∈
      (task_update_cmd dbSample 1 (some "d") none none (some "X") 20).out := by decide

/-- C2 witness: the amended statement evaluated on the sample database
with status d and unknown project X. -/
theorem project_not_found_aborts_witness :
    OutLine.error ("Project " ++ "X" ++ " not found.") ∈
      (task_update_cmd dbSample 1 (some "d") none none (some "X") 20).out ∧
    (task_update_cmd dbSample 1 (some "d") none none (some "X") 20).db =
      (if truthy (some "d") then
        (update_task_status dbSample 1 (normalize_status ((some "d").getD "")) 20).2
       else dbSample) :=
  (project_not_found_aborts dbSample 20).2.2 1 (some "d") none none "X"
    (by decide) (by decide) (by decide) (by decide)

/-- C8 (amended): status normalization lowercases its input and maps the
shortcut table keys to full names, leaving any other input unchanged; a
non-empty unrecognized status is rejected with a validation error and the
status never reaches a storage call, although read-only lookups made before
validation (the task fetch in task update) may already have run; the empty
string bypasses validation entirely and is passed to the storage layer as
a status filter. -/
theorem status_normalization (db : DB) (now : Nat) :
    (normalize_status "t" = "todo" ∧ normalize_status "T" = "todo" ∧
     normalize_status "todo" = "todo" ∧ normalize_status "TODO" = "todo" ∧
     normalize_status "i" = "in-progress" ∧ normalize_status "I" = "in-progress" ∧
     normalize_status "in-progress" = "in-progress" ∧
     normalize_status "d" = "done" ∧ normalize_status "D" = "done" ∧
     normalize_status "done" = "done") ∧
    (∀ s full, STATUS_SHORTCUTS.lookup (lowerString s) = some full →
      normalize_status s = full) ∧
    (∀ s, STATUS_SHORTCUTS.lookup (lowerString s) = none → normalize_status s = s) ∧
    (∀ s all, ¬ s = "" → VALID_STATUSES.contains (normalize_status s) = false →
      (task_list_cmd db none (some s) all).calls = [] ∧
      ∃ m, OutLine.error m ∈ (task_list_cmd db none (some s) all).out) ∧
    (∀ task_id s title desc, ¬ s = "" →
      VALID_STATUSES.contains (normalize_status s) = false →
      ¬ get_task db task_id = none →
      (task_update_cmd db task_id (some s) title desc none now).calls =
        [DBCall.getTask task_id] ∧
      (task_update_cmd db task_id (some s) title desc none now).db = db ∧
      ∃ m, OutLine.error m ∈ (task_update_cmd db task_id (some s) title desc none now).out) ∧
    (∀ all, (task_list_cmd db none (some "") all).calls =
      [DBCall.listTasksCall none (some "")]) := by
  refine ⟨by decide, ?_, ?_, ?_, ?_, ?_⟩
  · intro s full h
    unfold normalize_status
    rw [h]
  · intro s h
    unfold normalize_status
    rw [h]

  · intro s all hs hinv
    have hs2 : (s == "") = false := by simpa using hs
    unfold task_list_cmd task_list_body
    simp only [truthy, hs2, Option.getD_some, hinv, Bool.not_false, Bool.true_and,
      Bool.and_true, Bool.and_self, Bool.false_eq_true, if_false, if_true]
    simp
  · intro task_id s title desc hs hinv htask
    obtain ⟨v, hsome⟩ : ∃ v, get_task db task_id = some v := by
      cases hgt : get_task db task_id
      · exact absurd hgt htask
      · exact ⟨_, rfl⟩
    have hts : truthy (some s) = true := by simp [truthy, hs]
    unfold task_update_cmd
    simp only [hsome, hts, if_true, Option.getD_some, hinv, Bool.false_eq_true, if_false]
    simp
  · intro all
    unfold task_list_cmd task_list_body
    simp only [truthy, Option.getD_some, Option.isNone_some, Bool.false_and,
      Bool.false_eq_true, if_false, beq_self_eq_true, Bool.not_true, Bool.and_self]
    split <;> rfl

/-- C8 counterexample: an empty status string is not rejected before a
storage call: task list passes the empty string to the storage layer as a
status filter and prints no validation error line. -/
theorem status_normalization_counterexample :
    (task_list_cmd dbSample none (some "") false).calls =
      [DBCall.listTasksCall none (some "")] ∧
    (task_list_cmd dbSample none (some "") false).out = [OutLine.info "No tasks found."] := by
  decide

/-- C8 witness: a non-empty invalid status on the sample database is
rejected in task list with no storage call at all. -/
theorem status_normalization_witness :
    (task_list_cmd dbSample none (some "xyz") false).calls = [] ∧
    ∃ m, OutLine.error m ∈ (task_list_cmd dbSample none (some "xyz") false).out :=
  (status_normalization dbSample 0).2.2.2.1 "xyz" false (by decide) (by decide)


/-- C3 witness: marking the sample task done at instant 20 succeeds and the
refetched row shows status done with updated_at strictly larger. -/
theorem update_status_done_then_get_witness :
    (update_task_status dbSample 1 "done" 20).1 = true ∧
    ∃ v2, get_task (update_task_status dbSample 1 "done" 20).2 1 = some v2 ∧
      v2.status = "done" ∧ viewShip.updated_at < v2.updated_at :=
  update_status_done_then_get dbSample 1 viewShip 20 (by decide) (by decide)

/-- C4 witness: the sample project name resolves and the done-filter
equivalences hold for the sample row. -/
theorem task_list_hides_done_witness :
    (viewShip ∈ (task_list_cmd dbSample (some "Acme") none false).rows ↔
      viewShip ∈ list_tasks dbSample (resolved_project_id dbSample (some "Acme")) none ∧
      ¬ viewShip.status = "done") ∧
    (viewShip ∈ (task_list_cmd dbSample (some "Acme") none true).rows ↔
      viewShip ∈ list_tasks dbSample (resolved_project_id dbSample (some "Acme")) none) :=
  task_list_hides_done dbSample (some "Acme") (by unfold project_resolves; decide) viewShip

/-- C5 witness: two concrete storage orderings of the same two rows with
distinct ids yield the same displayed list. -/
theorem task_list_display_sort_witness :
    List.Perm [viewLow, viewHigh] [viewHigh, viewLow] ∧
    List.Pairwise (fun a b => ¬ a.id = b.id) [viewLow, viewHigh] ∧
    sortByIdDesc [viewLow, viewHigh] = sortByIdDesc [viewHigh, viewLow] :=
  ⟨by decide, by decide,
    (task_list_display_sort [viewLow, viewHigh] [viewHigh, viewLow]).2.2.1
      (by decide) (by decide)⟩

/-- C6 witness: updating only the title of the sample task at instant 30
rewrites the title and updated_at and keeps every other field. -/
theorem update_task_frame_witness :
    ∃ t2, (update_task dbSample 1 (some "New") none none 30).2.tasks[0]? = some t2 ∧
      (¬ taskShip.id = 1 → t2 = taskShip) ∧
      (taskShip.id = 1 →
        t2.id = taskShip.id ∧ t2.status = taskShip.status ∧
        t2.created_at = taskShip.created_at ∧ t2.updated_at = 30 ∧
        t2.title = (match (some "New" : Option String) with
          | none => taskShip.title | some v => v) ∧
        t2.description = (match (none : Option String) with
          | none => taskShip.description | some v => some v) ∧
        t2.project_id = (match (none : Option Nat) with
          | none => taskShip.project_id | some v => some v)) :=
  (update_task_frame dbSample 1 30 (some "New") none none).2 (by simp) 0 taskShip (by decide)

/-- C7 witness: recreating the existing Work project fails with the
constraint violation and leaves the project rows unchanged. -/
theorem create_project_duplicate_witness :
    create_project dbDup "Work" 5 = .error .ConstraintViolation ∧
    (project_create_cmd dbDup "Work" 5).db = dbDup ∧
    (project_create_cmd dbDup "Work" 5).db.projects.length = dbDup.projects.length ∧
    ∃ m, OutLine.error m ∈ (project_create_cmd dbDup "Work" 5).out :=
  create_project_duplicate dbDup "Work" 5
    ⟨{ id := 1, name := "Work", created_at := 2 }, by decide, by decide⟩

/-- C9 witness: the timestamp invariant holds on the sample database and is
preserved by a status update at instant 20. -/
theorem updated_at_ge_created_at_witness :
    tasks_time_inv dbSample ∧
    tasks_time_inv (update_task_status dbSample 1 "done" 20).2 :=
  ⟨by unfold tasks_time_inv; decide,
    (updated_at_ge_created_at dbSample 20).2.2.1 1 "done"
      (by unfold tasks_time_inv; decide) (by decide)⟩

/-- C10 witness: updating a missing task id with a supplied title returns
false and leaves the sample database unchanged, as does the no-field call. -/
theorem update_task_missing_row_witness :
    update_task dbSample 99 (some "x") none none 7 = (false, dbSample) ∧
    update_task dbSample 99 none none none 7 = (false, dbSample) :=
  update_task_missing_row dbSample 99 7 (some "x") none none (by decide)

end PM
